import Mathlib

/-
Verification of the waitless stability-decision engine against its design
specification. The repository ships the unit tests and examples of the
engine; the engine modules themselves (waitless.config, waitless.signals,
waitless.engine, waitless.diagnostics) are modelled here from the
specification, faithful to its data model (spec section 3), the signal
evaluator rules (section 4.1), the stabilization waiter algorithm
(section 4.2) and the diagnostic reporter (section 4.3). Times are
rationals measured in seconds; telemetry mutation timestamps are rationals
measured in epoch-milliseconds, normalized at the evaluator boundary.
-/

namespace Waitless

/-- Modelled from the spec: the named strictness profile of a
PolicyConfiguration, one of strict, normal, relaxed (spec section 3). -/
inductive Strictness where
| strict
| normal
| relaxed
deriving DecidableEq, Repr

/-- Modelled from the spec: the enumerated signal categories
(spec section 3, data model). -/
inductive SignalType where
| networkRequests
| domMutations
| cssAnimations
| layoutShift
| mutationRate
deriving DecidableEq, Repr

/-- Modelled from the spec: the two states a signal can be in. -/
inductive SignalState where
| stable
| unstable
deriving DecidableEq, Repr

/-- Modelled from the spec: Signal is the record with type, state, observed
value, threshold and the mandatory flag (spec section 3). -/
structure Signal where
  signal_type : SignalType
  state : SignalState
  value : ℚ
  threshold : ℚ
  is_mandatory : Bool
deriving DecidableEq, Repr

/-- Modelled from the spec: a signal is stable when its state is STABLE. -/
def Signal.is_stable (s : Signal) : Bool :=
  s.state == SignalState.stable

/-- Modelled from the spec: derived field
is_blocking = is_mandatory AND state = UNSTABLE (spec section 3). -/
def Signal.is_blocking (s : Signal) : Bool :=
  s.is_mandatory && (s.state == SignalState.unstable)

/-- Modelled from the spec: StabilityStatus, the evaluator verdict with the
overall flag, the ordered signal sequence, and the timestamp. -/
structure StabilityStatus where
  is_stable : Bool
  signals : List Signal
  timestamp : ℚ
deriving DecidableEq, Repr

/-- Modelled from the spec: derived field
blocking_signals = signals where is_blocking (spec section 3). -/
def StabilityStatus.blocking_signals (st : StabilityStatus) : List Signal :=
  st.signals.filter (fun s => s.is_blocking)

/-- Modelled from the spec: the immutable PolicyConfiguration value
(spec section 3). Validation happens in mkStabilizationConfig. -/
structure StabilizationConfig where
  timeout : ℚ
  poll_interval : ℚ
  dom_settle_time : ℚ
  network_idle_threshold : ℕ
  animation_detection : Bool
  layout_stability : Bool
  strictness : Strictness
  mutation_rate_threshold : ℚ
  debug_mode : Bool
deriving DecidableEq, Repr

/-- Modelled from the spec: the strictness field is one of the three named
values; any other string is a configuration error. -/
def parseStrictness : String → Option Strictness
| "strict" => some Strictness.strict
| "normal" => some Strictness.normal
| "relaxed" => some Strictness.relaxed
| _ => none

/-- Modelled from the spec: eager, fail-fast construction of a
StabilizationConfig (spec sections 3 and 7): timeout must be positive,
poll_interval must be positive and at most timeout, dom_settle_time must be
non-negative, strictness must be one of the three named values. A
ConfigurationError is modelled as the error branch of Except, produced at
construction and never later. The spec does not fix the threshold of the
non-fatal very-high-timeout warning; the unit tests of the repository pin
timeout = 120 as warning-producing, so the model warns above 60 seconds.
The returned list holds the warning messages emitted by construction. -/
def mkStabilizationConfig (timeout poll_interval dom_settle_time : ℚ)
    (network_idle_threshold : ℕ) (animation_detection layout_stability : Bool)
    (strictness : String) (mutation_rate_threshold : ℚ) (debug_mode : Bool) :
    Except String (StabilizationConfig × List String) :=
  if timeout ≤ 0 then Except.error "timeout must be positive"
  else if poll_interval ≤ 0 then Except.error "poll_interval must be positive"
  else if timeout < poll_interval then Except.error "poll_interval cannot exceed timeout"
  else if dom_settle_time < 0 then Except.error "dom_settle_time cannot be negative"
  else
    match parseStrictness strictness with
    | none => Except.error "strictness must be one of strict, normal, relaxed"
    | some s =>
      Except.ok
        ({ timeout := timeout
           poll_interval := poll_interval
           dom_settle_time := dom_settle_time
           network_idle_threshold := network_idle_threshold
           animation_detection := animation_detection
           layout_stability := layout_stability
           strictness := s
           mutation_rate_threshold := mutation_rate_threshold
           debug_mode := debug_mode },
         if 60 < timeout then ["timeout is very high; waits may hang for a long time"] else [])

/-- Modelled from the spec: defaults are not listed in the spec text; the
unit tests of the repository fix them as timeout 10.0, poll_interval 0.05,
dom_settle_time 0.1, network_idle_threshold 0, animation_detection true,
strictness normal, debug_mode false. The remaining fields
(layout_stability, mutation_rate_threshold) are pinned by neither spec nor
tests and are modelled as true and 10. -/
def defaultConfigResult : Except String (StabilizationConfig × List String) :=
  mkStabilizationConfig 10 (5/100) (1/10) 0 true true "normal" 10 false

/-- Modelled from the spec: the module-level DEFAULT_CONFIG singleton, the
result of constructing a StabilizationConfig with no arguments. -/
def DEFAULT_CONFIG : Option StabilizationConfig :=
  defaultConfigResult.toOption.map (fun p => p.1)

/-- Modelled from the spec: TelemetrySnapshot, one point-in-time read of
browser state (spec section 3). last_mutation_time is in epoch-ms. -/
structure TelemetrySnapshot where
  pending_requests : ℕ
  last_mutation_time : ℚ
  mutation_rate : ℚ
  active_animations : ℕ
  layout_shifting : Bool
deriving DecidableEq, Repr

/-- Modelled from the spec: the strictness-to-mandatory matrix of
section 4.1, which overrides the per-signal mandatory computation:
strict makes every signal mandatory; normal makes network-requests and
dom-mutations mandatory; relaxed makes only network-requests mandatory. -/
def mandatoryFor (c : StabilizationConfig) : SignalType → Bool
| SignalType.networkRequests => true
| SignalType.domMutations => !(c.strictness == Strictness.relaxed)
| SignalType.cssAnimations => c.strictness == Strictness.strict
| SignalType.layoutShift => c.strictness == Strictness.strict
| SignalType.mutationRate => c.strictness == Strictness.strict

/-- Modelled from the spec: helper turning a stability predicate into a
SignalState. -/
def stateOf (b : Bool) : SignalState :=
  if b then SignalState.stable else SignalState.unstable

/-- Modelled from the spec: the pure signal evaluator of section 4.1.
The argument now is in seconds; the snapshot mutation timestamp is
normalized from epoch-ms to seconds at this boundary. Per-signal rules:
network-requests stable iff pending_requests is at most the (inclusive)
network_idle_threshold; dom-mutations stable iff now minus the normalized
last mutation time is at least dom_settle_time; css-animations stable iff
no active animation or not mandatory; layout-shift stable iff not shifting
or not mandatory; mutation-rate stable iff the rate is at most the
threshold or not mandatory. Output order is fixed (network, dom,
animations, layout, mutation-rate) and
is_stable is the AND over mandatory signals of their stability. -/
def evaluate (config : StabilizationConfig) (snapshot : TelemetrySnapshot)
    (now : ℚ) : StabilityStatus :=
  let netMand := mandatoryFor config SignalType.networkRequests
  let netStable := decide (snapshot.pending_requests ≤ config.network_idle_threshold)
  let domMand := mandatoryFor config SignalType.domMutations
  let domValue := now - snapshot.last_mutation_time / 1000
  let domStable := decide (config.dom_settle_time ≤ domValue)
  let animMand := mandatoryFor config SignalType.cssAnimations
  let animStable := (snapshot.active_animations == 0) || !animMand
  let layoutMand := mandatoryFor config SignalType.layoutShift
  let layoutStable := !snapshot.layout_shifting || !layoutMand
  let rateMand := mandatoryFor config SignalType.mutationRate
  let rateStable := decide (snapshot.mutation_rate ≤ config.mutation_rate_threshold) || !rateMand
  let signals : List Signal :=
    [ { signal_type := SignalType.networkRequests
        state := stateOf netStable
        value := (snapshot.pending_requests : ℚ)
        threshold := (config.network_idle_threshold : ℚ)
        is_mandatory := netMand },
      { signal_type := SignalType.domMutations
        state := stateOf domStable
        value := domValue
        threshold := config.dom_settle_time
        is_mandatory := domMand },
      { signal_type := SignalType.cssAnimations
        state := stateOf animStable
        value := (snapshot.active_animations : ℚ)
        threshold := 0
        is_mandatory := animMand },
      { signal_type := SignalType.layoutShift
        state := stateOf layoutStable
        value := if snapshot.layout_shifting then 1 else 0
        threshold := 0
        is_mandatory := layoutMand },
      { signal_type := SignalType.mutationRate
        state := stateOf rateStable
        value := snapshot.mutation_rate
        threshold := config.mutation_rate_threshold
        is_mandatory := rateMand } ]
  { is_stable := signals.all (fun s => !s.is_blocking)
    signals := signals
    timestamp := now }

/-- Find the signal of a given category in a StabilityStatus. -/
def StabilityStatus.findSignal (st : StabilityStatus) (ty : SignalType) : Option Signal :=
  st.signals.find? (fun s => s.signal_type == ty)

/-- Modelled from the spec: one entry of the diagnostic timeline, a
timestamp together with the names of the signals blocking at that tick
(spec section 4.2, step 4). -/
structure TimelineEntry where
  timestamp : ℚ
  blocking : List SignalType
deriving DecidableEq, Repr

/-- Modelled from the spec: the DiagnosticRecord built on timeout: config
snapshot, latest blocking-factor values keyed by signal category, the
capped timeline, and the capture timestamp (spec section 3). -/
structure DiagnosticRecord where
  config : StabilizationConfig
  blocking_factors : List (SignalType × ℚ)
  timeline : List TimelineEntry
  captured_at : ℚ
deriving DecidableEq, Repr

/-- Modelled from the spec: the tagged outcome of a wait, either the stable
status or the timeout failure carrying a DiagnosticRecord
(spec sections 4.2 and 9, exception-driven timeout note). -/
inductive WaitResult where
| success (status : StabilityStatus)
| timedOut (record : DiagnosticRecord)
deriving DecidableEq, Repr

/-- Modelled from the spec: the timeline capacity of 50 entries with the
oldest dropped first on overflow (spec section 4.2, step 4). -/
def timelineCapacity : ℕ := 50

/-- Modelled from the spec: append an entry to the capped timeline,
dropping the oldest entries beyond the capacity. -/
def pushTimeline (tl : List TimelineEntry) (e : TimelineEntry) : List TimelineEntry :=
  let grown := tl ++ [e]
  if timelineCapacity < grown.length then grown.drop (grown.length - timelineCapacity) else grown

/-- Modelled from the spec: one-step body plus recursion of the polling
loop of section 4.2, driven by a virtual clock (section 5): source maps
an absolute time to the snapshot a fetch at that time returns, elapsed
is the time spent since t0; fetch and evaluation are free, each sleep
advances the clock by min(poll_interval, timeout - elapsed). The fuel
argument bounds the recursion; none means fuel ran out before the loop
returned (shown impossible for the fuel used by wait_for_stability). -/
def waitLoop (config : StabilizationConfig) (source : ℚ → TelemetrySnapshot)
    (t0 : ℚ) : ℕ → ℚ → List TimelineEntry → List (SignalType × ℚ) → Option WaitResult
| 0, _, _, _ => none
| fuel + 1, elapsed, tl, _ =>
  let now := t0 + elapsed
  let status := evaluate config (source now) now
  if status.is_stable then some (WaitResult.success status)
  else
    let blocking := status.blocking_signals
    let tl' := pushTimeline tl { timestamp := now, blocking := blocking.map (fun s => s.signal_type) }
    let bf' := blocking.map (fun s => (s.signal_type, s.value))
    if config.timeout ≤ elapsed then
      some (WaitResult.timedOut
        { config := config, blocking_factors := bf', timeline := tl', captured_at := now })
    else
      waitLoop config source t0 fuel
        (elapsed + min config.poll_interval (config.timeout - elapsed)) tl' bf'

/-- Fuel sufficient for the polling loop: one unit per poll tick plus slack
for the clamped final tick and the terminal check. -/
def waitFuel (config : StabilizationConfig) : ℕ :=
  ⌈config.timeout / config.poll_interval⌉.toNat + 2

/-- Modelled from the spec: wait_for_stability of section 4.2, starting the
loop at elapsed time zero with an empty timeline and no recorded blocking
factors. -/
def wait_for_stability (config : StabilizationConfig)
    (source : ℚ → TelemetrySnapshot) (t0 : ℚ) : Option WaitResult :=
  waitLoop config source t0 (waitFuel config) 0 [] []

/-- Modelled from the spec: the loosely structured values that may appear
in a diagnostics mapping handed to the reporter (spec section 4.3). -/
inductive DiagValue where
| num (q : ℚ)
| str (s : String)
| flag (b : Bool)
| list (n : ℕ)
deriving DecidableEq, Repr

/-- Render a diagnostics value as text. -/
def renderValue : DiagValue → String
| DiagValue.num q => toString q.num ++ (if q.den == 1 then "" else "/" ++ toString q.den)
| DiagValue.str s => s
| DiagValue.flag b => if b then "true" else "false"
| DiagValue.list n => toString n ++ " item(s)"

/-- Modelled from the spec: the diagnostics mapping consumed by the
reporter, string-keyed like the loosely structured payload of the source
tests: a config mapping possibly missing fields, a blocking_factors
mapping possibly holding unknown keys, and a timeline. -/
structure DiagnosticsInput where
  config : List (String × DiagValue)
  blocking_factors : List (String × DiagValue)
  timeline : List (String × DiagValue)
deriving DecidableEq, Repr

/-- Look up a key in a string-keyed mapping. -/
def dictGet (d : List (String × DiagValue)) (k : String) : Option DiagValue :=
  (d.find? (fun kv => kv.1 == k)).map (fun kv => kv.2)

/-- Render a config field, defaulting to "unknown" when absent. -/
def configField (cfg : List (String × DiagValue)) (k : String) : String :=
  match dictGet cfg k with
  | some v => renderValue v
  | none => "unknown"

/-- Modelled from the spec: the configuration-summary section of the text
report (timeout, strictness, thresholds), tolerating missing fields. -/
def configLines (cfg : List (String × DiagValue)) : List String :=
  [ "Timeout: " ++ configField cfg "timeout" ++ "s",
    "Strictness: " ++ configField cfg "strictness",
    "Network idle threshold: " ++ configField cfg "network_idle_threshold",
    "Animation detection: " ++ configField cfg "animation_detection" ]

/-- The blocking-factor keys the reporter renders with a dedicated
paragraph and remediation hint. -/
def knownFactorKeys : List String :=
  ["pending_requests", "pending_request_details", "active_animations", "layout_shifting"]

/-- Modelled from the spec: one paragraph per present blocking factor with
a specific remediation hint; an unrecognized key defaults to an
"unknown factor" line rather than erroring (spec section 4.3). -/
def factorLines (kv : String × DiagValue) : List String :=
  if kv.1 == "pending_requests" then
    [ "NETWORK: " ++ renderValue kv.2 ++ " request(s) still pending",
      "SUGGESTION: raise network_idle_threshold or investigate the endpoint" ]
  else if kv.1 == "pending_request_details" then
    [ "Pending request details: " ++ renderValue kv.2 ]
  else if kv.1 == "active_animations" then
    [ "ANIMATIONS: " ++ renderValue kv.2 ++ " active animation(s)",
      "SUGGESTION: disable animation_detection or switch to relaxed strictness" ]
  else if kv.1 == "layout_shifting" then
    [ "LAYOUT: Elements are still moving",
      "SUGGESTION: check CSS containment" ]
  else
    [ "unknown factor: " ++ kv.1 ]

/-- Modelled from the spec: a tail of the most recent 10 timeline entries
even if up to 50 are retained (spec section 4.3). -/
def timelineLines (tl : List (String × DiagValue)) : List String :=
  "RECENT EVENTS (last 10):" ::
    (tl.drop (tl.length - 10)).map (fun kv => kv.1 ++ ": " ++ renderValue kv.2)

/-- Modelled from the spec: the ordered lines of the text report: header,
configuration summary, one paragraph per blocking factor with its
suggestion, and the timeline tail. -/
def reportLines (d : DiagnosticsInput) : List String :=
  ["WAITLESS STABILITY REPORT", "SUGGESTIONS"] ++ configLines d.config
    ++ (d.blocking_factors.map factorLines).flatten ++ timelineLines d.timeline

/-- Modelled from the spec: generate_text_report renders the diagnostics
mapping as human-readable text; it is total over its input, tolerating
missing config fields and unknown blocking-factor keys (spec section 4.3). -/
def generate_text_report (d : DiagnosticsInput) : String :=
  String.intercalate "\n" (reportLines d)

/-- Scenario configuration with network_idle_threshold 2 and the tested
defaults elsewhere (spec section 8, Scenario C). -/
def scenarioCConfig : StabilizationConfig :=
  { timeout := 10, poll_interval := 5/100, dom_settle_time := 1/10,
    network_idle_threshold := 2, animation_detection := true, layout_stability := true,
    strictness := Strictness.normal, mutation_rate_threshold := 10, debug_mode := false }

/-- Snapshot with two pending requests and mutations settled 200ms before
the evaluation time of 10 seconds. -/
def scenarioCSnapshot : TelemetrySnapshot :=
  { pending_requests := 2, last_mutation_time := 9800, mutation_rate := 0,
    active_animations := 0, layout_shifting := false }

/-- The Scenario C configuration with the network threshold raised to 4. -/
def scenarioC4Config : StabilizationConfig :=
  { scenarioCConfig with network_idle_threshold := 4 }

/-- Scenario configuration with dom_settle_time 0.1 seconds and the tested
defaults elsewhere (spec section 8, Scenario D). -/
def scenarioDConfig : StabilizationConfig :=
  { timeout := 10, poll_interval := 5/100, dom_settle_time := 1/10,
    network_idle_threshold := 0, animation_detection := true, layout_stability := true,
    strictness := Strictness.normal, mutation_rate_threshold := 10, debug_mode := false }

/-- Snapshot whose last DOM mutation happened 50ms before the evaluation
time of 10 seconds (timestamp in epoch-ms). -/
def scenarioDRecentSnap : TelemetrySnapshot :=
  { pending_requests := 0, last_mutation_time := 9950, mutation_rate := 0,
    active_animations := 0, layout_shifting := false }

/-- Snapshot whose last DOM mutation happened 200ms before the evaluation
time of 10 seconds. -/
def scenarioDSettledSnap : TelemetrySnapshot :=
  { pending_requests := 0, last_mutation_time := 9800, mutation_rate := 0,
    active_animations := 0, layout_shifting := false }

/-- Strict configuration used to exercise the strictness-ordering part of
the relaxed-mode property. -/
def strictAnimConfig : StabilizationConfig :=
  { timeout := 10, poll_interval := 5/100, dom_settle_time := 1/10,
    network_idle_threshold := 0, animation_detection := true, layout_stability := true,
    strictness := Strictness.strict, mutation_rate_threshold := 10, debug_mode := false }

/-- Snapshot that is quiet except for five active css animations. -/
def animOnlySnapshot : TelemetrySnapshot :=
  { pending_requests := 0, last_mutation_time := 9800, mutation_rate := 0,
    active_animations := 5, layout_shifting := false }

/-- The non-mandatory css-animations signal that evaluate produces under
a normal-strictness configuration for a quiet snapshot. -/
def optionalAnimSignal : Signal :=
  { signal_type := SignalType.cssAnimations, state := SignalState.stable,
    value := 0, threshold := 0, is_mandatory := false }

/-- Configuration with a one-second timeout and half-second poll interval
for the timeout-bound witness. -/
def neverStableConfig : StabilizationConfig :=
  { timeout := 1, poll_interval := 1/2, dom_settle_time := 1/10,
    network_idle_threshold := 0, animation_detection := true, layout_stability := true,
    strictness := Strictness.normal, mutation_rate_threshold := 10, debug_mode := false }

/-- Telemetry source permanently reporting one pending request. -/
def neverStableSource : ℚ → TelemetrySnapshot :=
  fun _ => { pending_requests := 1, last_mutation_time := 0, mutation_rate := 0,
             active_animations := 0, layout_shifting := false }

theorem stateOf_beq_stable (b : Bool) : (stateOf b == SignalState.stable) = b := by
  cases b <;> rfl

theorem stateOf_beq_unstable (b : Bool) : (stateOf b == SignalState.unstable) = !b := by
  cases b <;> rfl

theorem stateOf_eq_stable_iff (b : Bool) : stateOf b = SignalState.stable ↔ b = true := by
  cases b <;> simp [stateOf]

theorem not_blocking_eq (s : Signal) : (!s.is_blocking) = (!s.is_mandatory || s.is_stable) := by
  rcases s with ⟨ty, st, v, th, m⟩
  cases st <;> cases m <;> rfl

/-- Helper: the overall stability flag, an AND over all signals of
not-blocking, equals the AND over mandatory signals of stability. -/
theorem all_not_blocking_eq_mandatory_all (l : List Signal) :
    (l.all fun s => !s.is_blocking) = (l.filter (fun s => s.is_mandatory)).all Signal.is_stable := by
  induction l with
  | nil => rfl
  | cons a l ih =>
    rw [List.all_cons, not_blocking_eq, List.filter_cons]
    cases hm : a.is_mandatory <;> simp [List.all_cons, ih]

/-- Helper: characterization of the evaluator verdict as a proposition over
the raw snapshot fields and the configuration. -/
theorem evaluate_is_stable_iff (config : StabilizationConfig)
    (snapshot : TelemetrySnapshot) (now : ℚ) :
    (evaluate config snapshot now).is_stable = true ↔
      (snapshot.pending_requests ≤ config.network_idle_threshold
       ∧ (config.strictness ≠ Strictness.relaxed →
            config.dom_settle_time ≤ now - snapshot.last_mutation_time / 1000)
       ∧ (config.strictness = Strictness.strict → snapshot.active_animations = 0)
       ∧ (config.strictness = Strictness.strict → snapshot.layout_shifting = false)
       ∧ (config.strictness = Strictness.strict →
            snapshot.mutation_rate ≤ config.mutation_rate_threshold)) := by
  cases hc : config.strictness <;>
    simp [evaluate, mandatoryFor, hc, List.all_cons, Signal.is_blocking,
      stateOf_beq_unstable, Bool.not_eq_true', decide_eq_false_iff_not,
      decide_eq_true_eq, Signal.is_stable, beq_iff_eq]

/-- Helper: the stability flag of an evaluator verdict is definitionally
the AND over its signals of not-blocking. -/
theorem evaluate_is_stable_def (config : StabilizationConfig)
    (snapshot : TelemetrySnapshot) (now : ℚ) :
    (evaluate config snapshot now).is_stable
      = (evaluate config snapshot now).signals.all (fun s => !s.is_blocking) := rfl

theorem scenarioC_dom_settled :
    scenarioCConfig.dom_settle_time ≤ 10 - scenarioCSnapshot.last_mutation_time / 1000 := by
  norm_num [scenarioCConfig, scenarioCSnapshot]

theorem scenarioC_rate_ok :
    scenarioCSnapshot.mutation_rate ≤ scenarioCConfig.mutation_rate_threshold := by
  norm_num [scenarioCConfig, scenarioCSnapshot]

theorem scenarioC_stable_helper :
    (evaluate scenarioCConfig scenarioCSnapshot 10).is_stable = true := by
  rw [evaluate_is_stable_iff]
  norm_num [scenarioCConfig, scenarioCSnapshot]

theorem strictAnim_unstable :
    (evaluate strictAnimConfig animOnlySnapshot 10).is_stable = false := by
  rw [Bool.eq_false_iff]
  intro h
  rw [evaluate_is_stable_iff] at h
  have := h.2.2.1 rfl
  simp [animOnlySnapshot] at this

theorem strictAnim_blocking :
    ∀ s ∈ (evaluate strictAnimConfig animOnlySnapshot 10).blocking_signals,
      s.signal_type = SignalType.cssAnimations := by
  intro s hs
  have hsettled : ((10:ℚ)⁻¹ ≤ 10 - 9800/1000) := by norm_num
  simp only [StabilityStatus.blocking_signals, evaluate, mandatoryFor,
    strictAnimConfig, animOnlySnapshot, List.mem_filter, Signal.is_blocking,
    List.mem_cons, List.not_mem_nil, or_false] at hs
  rcases hs with ⟨hmem, hblk⟩
  rcases hmem with h | h | h | h | h <;> subst h <;> simp_all [stateOf, hsettled]

theorem neverStable_hyp :
    ∀ t, (evaluate neverStableConfig (neverStableSource t) t).is_stable = false :=
  fun _ => rfl

/-- Helper: one unfolding of the polling loop at positive fuel. -/
theorem waitLoop_succ (config : StabilizationConfig) (source : ℚ → TelemetrySnapshot)
    (t0 : ℚ) (fuel : ℕ) (elapsed : ℚ) (tl : List TimelineEntry)
    (bf : List (SignalType × ℚ)) :
    waitLoop config source t0 (fuel + 1) elapsed tl bf =
      (let now := t0 + elapsed
       let status := evaluate config (source now) now
       if status.is_stable then some (WaitResult.success status)
       else
         let blocking := status.blocking_signals
         let tl' := pushTimeline tl { timestamp := now, blocking := blocking.map (fun s => s.signal_type) }
         let bf' := blocking.map (fun s => (s.signal_type, s.value))
         if config.timeout ≤ elapsed then
           some (WaitResult.timedOut
             { config := config, blocking_factors := bf', timeline := tl', captured_at := now })
         else
           waitLoop config source t0 fuel
             (elapsed + min config.poll_interval (config.timeout - elapsed)) tl' bf') := rfl

/-- Helper: against a source that never evaluates stable, the loop with
enough fuel returns a timeout failure captured no later than t0 plus the
configured timeout. -/
theorem waitLoop_never_stable (config : StabilizationConfig)
    (source : ℚ → TelemetrySnapshot) (t0 : ℚ)
    (hp : 0 < config.poll_interval)
    (hun : ∀ t, (evaluate config (source t) t).is_stable = false) :
    ∀ (n : ℕ) (elapsed : ℚ) (tl : List TimelineEntry) (bf : List (SignalType × ℚ)),
      elapsed ≤ config.timeout →
      config.timeout - elapsed ≤ n * config.poll_interval →
      ∃ rec, waitLoop config source t0 (n + 2) elapsed tl bf
          = some (WaitResult.timedOut rec)
        ∧ rec.captured_at ≤ t0 + config.timeout := by
  intro n
  induction n with
  | zero =>
    intro elapsed tl bf hle hbound
    have hT : config.timeout ≤ elapsed := by
      have h0 : ((0:ℕ) : ℚ) * config.poll_interval = 0 := by norm_num
      rw [h0] at hbound
      linarith
    have h02 : (0:ℕ) + 2 = 1 + 1 := rfl
    rw [h02, waitLoop_succ]
    simp only [hun (t0 + elapsed), Bool.false_eq_true, if_false, if_pos hT]
    refine ⟨_, rfl, ?_⟩
    show t0 + elapsed ≤ t0 + config.timeout
    linarith
  | succ n ih =>
    intro elapsed tl bf hle hbound
    have hstep : n + 1 + 2 = (n + 2) + 1 := by omega
    rw [hstep, waitLoop_succ]
    simp only [hun (t0 + elapsed), Bool.false_eq_true, if_false]
    by_cases hTe : config.timeout ≤ elapsed
    · rw [if_pos hTe]
      refine ⟨_, rfl, ?_⟩
      show t0 + elapsed ≤ t0 + config.timeout
      linarith
    · rw [if_neg hTe]
      have hlt : elapsed < config.timeout := not_le.mp hTe
      apply ih
      · have hm : min config.poll_interval (config.timeout - elapsed)
            ≤ config.timeout - elapsed := min_le_right _ _
        linarith
      · push_cast [Nat.cast_succ] at hbound ⊢
        rcases le_or_lt config.poll_interval (config.timeout - elapsed) with hmin | hmin
        · rw [min_eq_left hmin]
          linarith
        · rw [min_eq_right (le_of_lt hmin)]
          have hnn : (0:ℚ) ≤ (n : ℚ) * config.poll_interval := by positivity
          linarith

/-- Claim C1: for every configuration and every telemetry source whose
snapshots never evaluate as stable, wait_for_stability terminates (the
fuel it uses suffices) and returns a timeout failure, with total elapsed
time bounded by timeout plus poll_interval. -/
theorem wait_never_stable_times_out (config : StabilizationConfig)
    (source : ℚ → TelemetrySnapshot) (t0 : ℚ)
    (hT : 0 < config.timeout) (hp : 0 < config.poll_interval)
    (hun : ∀ t, (evaluate config (source t) t).is_stable = false) :
    ∃ rec, wait_for_stability config source t0 = some (WaitResult.timedOut rec)
      ∧ rec.captured_at - t0 ≤ config.timeout + config.poll_interval := by
  have hfuel : config.timeout - 0
      ≤ (⌈config.timeout / config.poll_interval⌉.toNat : ℚ) * config.poll_interval := by
    rw [sub_zero]
    have h1 : config.timeout / config.poll_interval
        ≤ (⌈config.timeout / config.poll_interval⌉ : ℚ) := Int.le_ceil _
    have h2 : ((⌈config.timeout / config.poll_interval⌉ : ℤ) : ℚ)
        ≤ (⌈config.timeout / config.poll_interval⌉.toNat : ℚ) := by
      exact_mod_cast Int.self_le_toNat _
    have h3 := mul_le_mul_of_nonneg_right (le_trans h1 h2) (le_of_lt hp)
    rwa [div_mul_cancel₀ _ (ne_of_gt hp)] at h3
  obtain ⟨rec, hrec, hcap⟩ := waitLoop_never_stable config source t0 hp hun
    (⌈config.timeout / config.poll_interval⌉.toNat) 0 [] [] (le_of_lt hT) hfuel
  refine ⟨rec, ?_, by linarith⟩
  rw [wait_for_stability, waitFuel]
  exact hrec

/-- Witness for C1 at a configuration with timeout 1 and poll interval 1/2
against a source that always reports one pending request. -/
theorem wait_never_stable_times_out_witness :
    ∃ rec, wait_for_stability neverStableConfig neverStableSource 0
        = some (WaitResult.timedOut rec)
      ∧ rec.captured_at - 0 ≤ neverStableConfig.timeout + neverStableConfig.poll_interval :=
  wait_never_stable_times_out neverStableConfig neverStableSource 0
    one_pos one_half_pos neverStable_hyp

/-- Claim C2: the network-requests signal produced by evaluate is stable
iff snapshot.pending_requests is at most config.network_idle_threshold,
the threshold being inclusive; in particular with threshold 2 and two
pending requests the overall verdict is stable once every other mandatory
signal is satisfied, as in Scenario C. -/
theorem network_signal_threshold_inclusive (config : StabilizationConfig)
    (snapshot : TelemetrySnapshot) (now : ℚ) :
    (∃ sig, (evaluate config snapshot now).findSignal SignalType.networkRequests = some sig
        ∧ (sig.state = SignalState.stable ↔
             snapshot.pending_requests ≤ config.network_idle_threshold))
    ∧ (config.network_idle_threshold = 2 → snapshot.pending_requests = 2 →
        (config.strictness ≠ Strictness.relaxed →
           config.dom_settle_time ≤ now - snapshot.last_mutation_time / 1000) →
        (config.strictness = Strictness.strict → snapshot.active_animations = 0) →
        (config.strictness = Strictness.strict → snapshot.layout_shifting = false) →
        (config.strictness = Strictness.strict →
           snapshot.mutation_rate ≤ config.mutation_rate_threshold) →
        (evaluate config snapshot now).is_stable = true)
    ∧ (evaluate scenarioCConfig scenarioCSnapshot 10).is_stable = true := by
  refine ⟨⟨_, rfl, ?_⟩, ?_, scenarioC_stable_helper⟩
  · rw [stateOf_eq_stable_iff]
    simp
  · intro h2 hp hdom hanim hlay hrate
    rw [evaluate_is_stable_iff]
    exact ⟨by rw [h2, hp], hdom, hanim, hlay, hrate⟩

/-- Witness for C2: Scenario C discharged concretely, with the side
conditions on the other mandatory signals verified at the scenario
values. -/
theorem network_signal_threshold_inclusive_witness :
    (evaluate scenarioCConfig scenarioCSnapshot 10).is_stable = true :=
  (network_signal_threshold_inclusive scenarioCConfig scenarioCSnapshot 10).2.1
    rfl rfl (fun _ => scenarioC_dom_settled) (fun _ => rfl) (fun _ => rfl)
    (fun _ => scenarioC_rate_ok)

/-- Claim C3: the dom-mutations signal is stable iff now minus the
snapshot last mutation time, normalized from epoch-ms to seconds, is at
least config.dom_settle_time; with dom_settle_time 0.1s a mutation 50ms
before now yields an unstable verdict blocked exactly by dom-mutations,
and one 200ms before now does not block. -/
theorem dom_signal_settle_threshold (config : StabilizationConfig)
    (snapshot : TelemetrySnapshot) (now : ℚ) :
    (∃ sig, (evaluate config snapshot now).findSignal SignalType.domMutations = some sig
        ∧ (sig.state = SignalState.stable ↔
             config.dom_settle_time ≤ now - snapshot.last_mutation_time / 1000))
    ∧ ((evaluate scenarioDConfig scenarioDRecentSnap 10).is_stable = false
        ∧ (evaluate scenarioDConfig scenarioDRecentSnap 10).blocking_signals.map
            (fun s => s.signal_type) = [SignalType.domMutations])
    ∧ ((evaluate scenarioDConfig scenarioDSettledSnap 10).findSignal
          SignalType.domMutations).map Signal.is_blocking = some false := by
  have hrecent : ¬ ((1:ℚ)/10 ≤ 10 - 9950/1000) := by norm_num
  have hrecent' : ¬ ((10:ℚ)⁻¹ ≤ 10 - 9950/1000) := by norm_num
  have hsettled' : ((10:ℚ)⁻¹ ≤ 10 - 9800/1000) := by norm_num
  refine ⟨⟨_, rfl, ?_⟩, ⟨?_, ?_⟩, ?_⟩
  · rw [stateOf_eq_stable_iff]
    simp
  · rw [Bool.eq_false_iff]
    intro h
    rw [evaluate_is_stable_iff] at h
    have hd := h.2.1 (by simp [scenarioDConfig])
    rw [scenarioDConfig] at hd
    rw [scenarioDRecentSnap] at hd
    exact hrecent hd
  · simp [evaluate, scenarioDConfig, scenarioDRecentSnap, mandatoryFor, stateOf,
      StabilityStatus.blocking_signals, Signal.is_blocking, hrecent', beq_iff_eq]
  · simp [evaluate, scenarioDConfig, scenarioDSettledSnap, mandatoryFor, stateOf,
      StabilityStatus.findSignal, Signal.is_blocking, hsettled', beq_iff_eq]

/-- Claim C4: under relaxed strictness only the network-requests signal can
block, regardless of the animation and layout flags; and a snapshot whose
verdict under strict is unstable solely because of css-animations is
stable for the same timestamp under the same configuration relaxed. -/
theorem relaxed_only_network_blocks (config : StabilizationConfig)
    (snapshot : TelemetrySnapshot) (now : ℚ) :
    (config.strictness = Strictness.relaxed →
      ∀ s ∈ (evaluate config snapshot now).blocking_signals,
        s.signal_type = SignalType.networkRequests)
    ∧ (config.strictness = Strictness.strict →
        (evaluate config snapshot now).is_stable = false →
        (∀ s ∈ (evaluate config snapshot now).blocking_signals,
            s.signal_type = SignalType.cssAnimations) →
        (evaluate { config with strictness := Strictness.relaxed } snapshot now).is_stable
          = true) := by
  constructor
  · intro hrel s hs
    simp only [StabilityStatus.blocking_signals, evaluate, mandatoryFor, hrel,
      List.mem_filter, Signal.is_blocking, List.mem_cons, List.not_mem_nil,
      or_false] at hs
    rcases hs with ⟨hmem, hblk⟩
    rcases hmem with h | h | h | h | h <;> subst h <;> simp_all
  · intro hstrict _ honly
    have hnet : snapshot.pending_requests ≤ config.network_idle_threshold := by
      by_contra hn
      have hmem : (⟨SignalType.networkRequests,
          stateOf (decide (snapshot.pending_requests ≤ config.network_idle_threshold)),
          (snapshot.pending_requests : ℚ), (config.network_idle_threshold : ℚ),
          mandatoryFor config SignalType.networkRequests⟩ : Signal)
          ∈ (evaluate config snapshot now).blocking_signals := by
        simp [evaluate, StabilityStatus.blocking_signals, List.mem_filter,
          Signal.is_blocking, mandatoryFor, stateOf_beq_unstable, hn]
      have hty := honly _ hmem
      simp at hty
    rw [evaluate_is_stable_iff]
    simpa using hnet

/-- Witness for C4: the strict configuration blocked only by five active
animations becomes stable under relaxed. -/
theorem relaxed_only_network_blocks_witness :
    (evaluate { strictAnimConfig with strictness := Strictness.relaxed }
        animOnlySnapshot 10).is_stable = true :=
  (relaxed_only_network_blocks strictAnimConfig animOnlySnapshot 10).2
    rfl strictAnim_unstable strictAnim_blocking

/-- Claim C5: is_stable is true iff the blocking signals (mandatory and
unstable) are empty; is_stable equals the AND over mandatory signals of
their stability; a non-mandatory signal, unstable or not, never appears
among blocking_signals. -/
theorem stability_iff_no_blocking (config : StabilizationConfig)
    (snapshot : TelemetrySnapshot) (now : ℚ) :
    ((evaluate config snapshot now).is_stable = true ↔
        (evaluate config snapshot now).blocking_signals = [])
    ∧ ((evaluate config snapshot now).is_stable
        = ((evaluate config snapshot now).signals.filter
            (fun s => s.is_mandatory)).all Signal.is_stable)
    ∧ (∀ s ∈ (evaluate config snapshot now).signals, s.is_mandatory = false →
        s ∉ (evaluate config snapshot now).blocking_signals) := by
  refine ⟨?_, ?_, ?_⟩
  · rw [evaluate_is_stable_def, StabilityStatus.blocking_signals]
    simp [List.all_eq_true, List.filter_eq_nil_iff]
  · rw [evaluate_is_stable_def, all_not_blocking_eq_mandatory_all]
  · intro s _ hm
    simp [StabilityStatus.blocking_signals, List.mem_filter, Signal.is_blocking, hm]

/-- Witness for C5: the non-mandatory css-animations signal of the output
under a normal-strictness configuration is not among blocking_signals. -/
theorem stability_iff_no_blocking_witness :
    optionalAnimSignal ∉ (evaluate scenarioDConfig scenarioDRecentSnap 10).blocking_signals :=
  (stability_iff_no_blocking scenarioDConfig scenarioDRecentSnap 10).2.2 optionalAnimSignal
    (List.Mem.tail _ (List.Mem.tail _ (List.Mem.head _))) rfl

/-- Claim C6: monotonicity of the verdict in the network threshold: for two
configurations identical except for network_idle_threshold, a stable
verdict under the smaller threshold stays stable under the larger one. -/
theorem network_threshold_monotone (c1 c2 : StabilizationConfig)
    (snapshot : TelemetrySnapshot) (now : ℚ)
    (hthr : c1.network_idle_threshold ≤ c2.network_idle_threshold)
    (_ht : c1.timeout = c2.timeout) (_hpi : c1.poll_interval = c2.poll_interval)
    (hds : c1.dom_settle_time = c2.dom_settle_time)
    (_had : c1.animation_detection = c2.animation_detection)
    (_hls : c1.layout_stability = c2.layout_stability)
    (hst : c1.strictness = c2.strictness)
    (hmr : c1.mutation_rate_threshold = c2.mutation_rate_threshold)
    (_hdm : c1.debug_mode = c2.debug_mode)
    (h1 : (evaluate c1 snapshot now).is_stable = true) :
    (evaluate c2 snapshot now).is_stable = true := by
  rw [evaluate_is_stable_iff] at h1 ⊢
  rw [← hds, ← hst, ← hmr]
  exact ⟨le_trans h1.1 hthr, h1.2⟩

/-- Witness for C6: raising the Scenario C threshold from 2 to 4 keeps the
stable verdict. -/
theorem network_threshold_monotone_witness :
    (evaluate scenarioC4Config scenarioCSnapshot 10).is_stable = true :=
  network_threshold_monotone scenarioCConfig scenarioC4Config scenarioCSnapshot 10
    (by decide) rfl rfl rfl rfl rfl rfl rfl rfl scenarioC_stable_helper

/-- Claim C7: construction of a StabilizationConfig validates eagerly and
fails fast: a non-positive timeout, a non-positive poll interval, a poll
interval exceeding the timeout, or a strictness outside the three named
values each yield a ConfigurationError at construction; and every
configuration that constructs successfully satisfies all the bounds. -/
theorem config_validation_eager (timeout poll_interval dom_settle_time : ℚ)
    (network_idle_threshold : ℕ) (animation_detection layout_stability : Bool)
    (strictness : String) (mutation_rate_threshold : ℚ) (debug_mode : Bool) :
    ((timeout ≤ 0 ∨ poll_interval ≤ 0 ∨ timeout < poll_interval
        ∨ parseStrictness strictness = none) →
      ∃ msg, mkStabilizationConfig timeout poll_interval dom_settle_time
          network_idle_threshold animation_detection layout_stability strictness
          mutation_rate_threshold debug_mode = Except.error msg)
    ∧ (∀ c warnings, mkStabilizationConfig timeout poll_interval dom_settle_time
          network_idle_threshold animation_detection layout_stability strictness
          mutation_rate_threshold debug_mode = Except.ok (c, warnings) →
        0 < c.timeout ∧ 0 < c.poll_interval ∧ c.poll_interval ≤ c.timeout
          ∧ 0 ≤ c.dom_settle_time ∧ parseStrictness strictness = some c.strictness) := by
  constructor
  · intro h
    rw [mkStabilizationConfig]
    split_ifs with h1 h2 h3 h4 h5
    · exact ⟨_, rfl⟩
    · exact ⟨_, rfl⟩
    · exact ⟨_, rfl⟩
    · exact ⟨_, rfl⟩
    all_goals {
      rcases h with h | h | h | h
      · exact absurd h h1
      · exact absurd h h2
      · exact absurd h h3
      · rw [h]
        exact ⟨_, rfl⟩ }
  · intro c warnings hok
    rw [mkStabilizationConfig] at hok
    split_ifs at hok with h1 h2 h3 h4 h5
    all_goals {
      cases hps : parseStrictness strictness with
      | none =>
        rw [hps] at hok
        exact Except.noConfusion hok
      | some s =>
        rw [hps] at hok
        simp only [Except.ok.injEq, Prod.mk.injEq] at hok
        obtain ⟨hc, hw⟩ := hok
        subst hc
        exact ⟨not_le.mp h1, not_le.mp h2, not_lt.mp h3, not_lt.mp h4, rfl⟩ }

/-- Witness for C7: a zero timeout is rejected at construction. -/
theorem config_validation_eager_witness :
    ∃ msg, mkStabilizationConfig 0 (5/100) (1/10) 0 true true "normal" 10 false
      = Except.error msg :=
  (config_validation_eager 0 (5/100) (1/10) 0 true true "normal" 10 false).1
    (Or.inl le_rfl)

/-- Claim C8: the diagnostic text rendering is total over its input record:
the report of any diagnostics mapping is the plain join of its report
lines, and a blocking factor with an unknown key contributes an
"unknown factor" line to the report instead of raising. -/
theorem text_report_total (d : DiagnosticsInput) :
    generate_text_report d = String.intercalate "\n" (reportLines d)
    ∧ (∀ k v, (k, v) ∈ d.blocking_factors → k ∉ knownFactorKeys →
        ("unknown factor: " ++ k) ∈ reportLines d) := by
  refine ⟨rfl, ?_⟩
  intro k v hmem hunk
  simp only [knownFactorKeys, List.mem_cons, List.not_mem_nil, or_false, not_or] at hunk
  obtain ⟨h1, h2, h3, h4⟩ := hunk
  have hf : factorLines (k, v) = ["unknown factor: " ++ k] := by
    simp [factorLines, beq_iff_eq, h1, h2, h3, h4]
  rw [reportLines]
  refine List.mem_append.mpr (Or.inl (List.mem_append.mpr (Or.inr ?_)))
  exact List.mem_flatten.mpr ⟨factorLines (k, v), List.mem_map_of_mem _ hmem,
    by rw [hf]; exact List.mem_singleton_self _⟩

/-- Witness for C8: a diagnostics mapping whose only blocking factor has an
unrecognized key still renders, with the unknown-factor line present. -/
theorem text_report_total_witness :
    ("unknown factor: " ++ "mystery")
      ∈ reportLines ⟨[], [("mystery", DiagValue.num 3)], []⟩ :=
  (text_report_total ⟨[], [("mystery", DiagValue.num 3)], []⟩).2 "mystery" (DiagValue.num 3)
    (List.Mem.head _) (by decide)

/-- Claim C9: a StabilizationConfig constructed with no arguments has the
tested defaults (timeout 10, poll_interval 0.05, dom_settle_time 0.1,
network_idle_threshold 0, animation_detection true, strictness normal,
debug_mode false), emits no warning, and DEFAULT_CONFIG is exactly that
configuration. -/
theorem default_config_values :
    ∃ c, defaultConfigResult = Except.ok (c, [])
      ∧ c.timeout = 10 ∧ c.poll_interval = 0.05 ∧ c.dom_settle_time = 0.1
      ∧ c.network_idle_threshold = 0 ∧ c.animation_detection = true
      ∧ c.strictness = Strictness.normal ∧ c.debug_mode = false
      ∧ DEFAULT_CONFIG = some c := by
  have h : defaultConfigResult =
      Except.ok (⟨10, 5/100, 1/10, 0, true, true, Strictness.normal, 10, false⟩, []) := by
    rw [defaultConfigResult, mkStabilizationConfig]
    norm_num [parseStrictness]
  refine ⟨_, h, rfl, by norm_num, by norm_num, rfl, rfl, rfl, rfl, ?_⟩
  rw [DEFAULT_CONFIG, h]
  rfl

/-- Claim C10: a very large timeout is not a configuration error:
construction with timeout 120 succeeds and emits exactly one warning whose
message contains "very high". -/
theorem high_timeout_warns :
    ∃ c msg, mkStabilizationConfig 120 (5/100) (1/10) 0 true true "normal" 10 false
        = Except.ok (c, [msg])
      ∧ ∃ pre post, msg = pre ++ "very high" ++ post := by
  refine ⟨⟨120, 5/100, 1/10, 0, true, true, Strictness.normal, 10, false⟩,
    "timeout is very high; waits may hang for a long time", ?_,
    "timeout is ", "; waits may hang for a long time", ?_⟩
  · rw [mkStabilizationConfig]
    norm_num [parseStrictness]
  · rfl

end Waitless
